import Mathlib

/-!
Shallow embedding of the school-bus tracking core (backend/models/Bus.js,
backend/models/School.js, backend/routes/location.js,
backend/socket/socketHandlers.js, backend/services/trafficService.js).

JavaScript numbers are modelled as exact rationals (`ℚ`) on the data-plane
(coordinates, speeds, timestamps) and as real numbers (`ℝ`) in the
trigonometric geospatial math; `Math.round` is `⌊x + 1/2⌋`.  Timestamps
(`Date` values) are rationals ordered by `≤`.
-/

namespace BusTracking

/-- The `currentDirection` enum of `busSchema` (Bus.js:62-66). -/
inductive Direction where
  | to_school
  | from_school
deriving DecidableEq, Repr

/-- One route stop (School.js `stopSchema`): a name and a GeoJSON
`coordinates` pair stored `[longitude, latitude]`, modelled as
`(longitude, latitude)`. -/
structure Stop where
  name : String
  location : ℚ × ℚ
deriving DecidableEq, Repr

/-- A route: the ordered `stops` array of `routeSchema` (School.js). -/
structure Route where
  stops : List Stop
deriving DecidableEq, Repr

/-- The `currentLocation` subdocument of `busSchema` (Bus.js:29-52):
GeoJSON `coordinates = [lng, lat]`, plus timestamp, heading, speed. -/
structure BusLocation where
  coordinates : ℚ × ℚ
  timestamp : ℚ
  heading : Option ℚ
  speed : Option ℚ
deriving DecidableEq, Repr

/-- The fields of `busSchema` (Bus.js) that the tracking core reads or
writes.  `route` is the populated route document (nullable). -/
structure Bus where
  route : Option Route
  currentLocation : BusLocation
  currentDirection : Direction
  currentStopIndex : ℕ
  lastLocationUpdate : Option ℚ
  isOnRoute : Bool
deriving DecidableEq, Repr

/-- Method `busSchema.methods.updateLocation` (Bus.js:118-125): unconditionally
overwrites `currentLocation` with the new fix (GeoJSON `[lng, lat]` order),
stamps it with the receipt time `new Date()` (parameter `now`), and sets
`lastLocationUpdate` to the same receipt time.  The incoming fix carries no
timestamp parameter at all: the method never reads one. -/
def updateLocation (bus : Bus) (lat lng : ℚ) (heading speed : Option ℚ)
    (now : ℚ) : Bus :=
  { bus with
    currentLocation :=
      { coordinates := (lng, lat), timestamp := now,
        heading := heading, speed := speed },
    lastLocationUpdate := some now }

/-- Method `busSchema.methods.getNextStop` (Bus.js:128-134): resolves
`(currentStopIndex + 1) % stops.length` against the route's *raw* stop
array `this.route.stops`, with no reference to `currentDirection`. -/
def busGetNextStop (bus : Bus) : Option Stop :=
  match bus.route with
  | none => none
  | some r => r.stops.get? ((bus.currentStopIndex + 1) % r.stops.length)

/-- Method `busSchema.methods.advanceToNextStop` (Bus.js:137-149):
`currentStopIndex := (currentStopIndex + 1) % stops.length`, and the
direction is toggled exactly when the new index is `0`.
(The `stops = []` case, where JS would produce `NaN`, is outside the
spec's `N ≥ 2` regime and is not exercised by any theorem below.) -/
def advanceToNextStop (bus : Bus) : Bus :=
  match bus.route with
  | none => bus
  | some r =>
      let newIndex := (bus.currentStopIndex + 1) % r.stops.length
      { bus with
        currentStopIndex := newIndex,
        currentDirection :=
          if newIndex = 0 then
            (if bus.currentDirection = Direction.to_school then
              Direction.from_school else Direction.to_school)
          else bus.currentDirection }

/-- The `arrived_at_stop` socket handler (socketHandlers.js:261-296):
`bus.currentStopIndex = stopIndex; await bus.save()`.  The driver-asserted
`stopIndex` is stored verbatim — no bounds check against the route length
and no direction flip. -/
def arrivedAtStop (bus : Bus) (stopIndex : ℕ) : Bus :=
  { bus with currentStopIndex := stopIndex }

/-- Method `routeSchema.methods.getStopsForDirection` (School.js:335-341):
reversed stop list for the `from_school` (inbound) journey. -/
def getStopsForDirection (r : Route) (direction : Direction) : List Stop :=
  match direction with
  | Direction.from_school => r.stops.reverse
  | Direction.to_school => r.stops

/-- Method `routeSchema.methods.getNextStop` (School.js:382-394): resolves
`(currentStopIndex + 1) % stops.length` against the *direction-ordered*
stop list, returning `{stop, index}`. -/
def routeGetNextStop (r : Route) (currentStopIndex : ℕ)
    (direction : Direction) : Option (Stop × ℕ) :=
  if r.stops.isEmpty then none
  else
    let stops := getStopsForDirection r direction
    let nextIndex := (currentStopIndex + 1) % stops.length
    match stops.get? nextIndex with
    | some s => some (s, nextIndex)
    | none => none

/-- A raw fix as posted to `POST /location/update` (location.js:12-25).
The body may also carry a `timestamp` field; the handler never reads it. -/
structure RawFix where
  latitude : ℚ
  longitude : ℚ
  heading : Option ℚ
  speed : Option ℚ
  accuracy : Option ℚ
  timestamp : Option ℚ
deriving DecidableEq, Repr

/-- The express-validator chain of `POST /location/update`
(location.js:12-17): `latitude ∈ [-90,90]`, `longitude ∈ [-180,180]`,
optional `heading ∈ [0,360]`, optional `speed ≥ 0`, optional
`accuracy ≥ 0`. -/
def validFix (f : RawFix) : Bool :=
  (-90 ≤ f.latitude && f.latitude ≤ 90) &&
  (-180 ≤ f.longitude && f.longitude ≤ 180) &&
  (match f.heading with | none => true | some h => 0 ≤ h && h ≤ 360) &&
  (match f.speed with | none => true | some s => decide (0 ≤ s)) &&
  (match f.accuracy with | none => true | some a => decide (0 ≤ a))

/-- One `LocationLog` document as constructed by the `POST /update`
handler (location.js:38-54). -/
structure LocationLogEntry where
  coordinates : ℚ × ℚ
  heading : Option ℚ
  speed : Option ℚ
  direction : Direction
  currentStopIndex : ℕ
  isOnRoute : Bool
  accuracy : Option ℚ
deriving DecidableEq, Repr

/-- Result of one `POST /location/update` request: HTTP status, the bus
state after the request, and the location-log collection after it. -/
structure IngestOutcome where
  status : ℕ
  bus : Bus
  logs : List LocationLogEntry
deriving DecidableEq, Repr

/-- State-mutating portion of the `POST /location/update` handler
(location.js:18-56): validation failure returns 400 before the bus is
touched; otherwise `bus.updateLocation(...)` runs and a `LocationLog`
entry is appended.  (The proximity/position socket emissions of
lines 58-96 carry no state and are modelled separately below.) -/
def ingestUpdate (bus : Bus) (logs : List LocationLogEntry) (f : RawFix)
    (now : ℚ) : IngestOutcome :=
  if validFix f = false then
    { status := 400, bus := bus, logs := logs }
  else
    let bus' := updateLocation bus f.latitude f.longitude f.heading f.speed now
    let entry : LocationLogEntry :=
      { coordinates := (f.longitude, f.latitude),
        heading := f.heading, speed := f.speed,
        direction := bus'.currentDirection,
        currentStopIndex := bus'.currentStopIndex,
        isOnRoute := bus'.isOnRoute,
        accuracy := f.accuracy }
    { status := 200, bus := bus', logs := logs ++ [entry] }

/-- JavaScript `Math.round`: round half toward positive infinity,
i.e. `⌊x + 1/2⌋`. -/
noncomputable def jsRound (x : ℝ) : ℤ := ⌊x + 1/2⌋

/-- JavaScript `Math.round(x * 100) / 100` — the two-decimal rounding applied to
reported distances. -/
noncomputable def round2 (x : ℝ) : ℝ := (jsRound (x * 100) : ℝ) / 100

/-- JavaScript `Math.atan2(y, x)`. -/
noncomputable def atan2 (y x : ℝ) : ℝ :=
  if 0 < x then Real.arctan (y / x)
  else if x < 0 then
    (if 0 ≤ y then Real.arctan (y / x) + Real.pi
     else Real.arctan (y / x) - Real.pi)
  else if 0 < y then Real.pi / 2
  else if y < 0 then -(Real.pi / 2)
  else 0

/-- Method `routeSchema.methods.deg2rad` (School.js:356-358). -/
noncomputable def deg2rad (deg : ℝ) : ℝ := deg * (Real.pi / 180)

/-- The haversine `a`-term shared by School.js:348-351 (via `deg2rad`). -/
noncomputable def havA (lat1 lon1 lat2 lon2 : ℝ) : ℝ :=
  Real.sin (deg2rad (lat2 - lat1) / 2) * Real.sin (deg2rad (lat2 - lat1) / 2) +
    Real.cos (deg2rad lat1) * Real.cos (deg2rad lat2) *
      Real.sin (deg2rad (lon2 - lon1) / 2) * Real.sin (deg2rad (lon2 - lon1) / 2)

/-- Method `routeSchema.methods.calculateDistance` (School.js:344-354): haversine
great-circle distance in kilometres, Earth radius `R = 6371`. -/
noncomputable def calculateDistance (lat1 lon1 lat2 lon2 : ℝ) : ℝ :=
  6371 * (2 * atan2 (Real.sqrt (havA lat1 lon1 lat2 lon2))
    (Real.sqrt (1 - havA lat1 lon1 lat2 lon2)))

/-- Return record of `calculateBasicETA` (trafficService.js:185-190). -/
structure BasicETA where
  etaMinutes : ℤ
  distance : ℝ
  trafficDelay : ℝ
  hasTraffic : Bool

/-- Function `calculateBasicETA` (trafficService.js:170-195): inlines the same
haversine formula (writing `x * Math.PI / 180` for the degree→radian
conversion), divides by `averageSpeed` (default 30 km/h), and returns
`trafficDelay: 0, hasTraffic: false`. -/
noncomputable def calculateBasicETA (originLat originLng destLat destLng : ℝ)
    (averageSpeed : ℝ := 30) : BasicETA :=
  let dLat := (destLat - originLat) * Real.pi / 180
  let dLon := (destLng - originLng) * Real.pi / 180
  let a := Real.sin (dLat/2) * Real.sin (dLat/2) +
    Real.cos (originLat * Real.pi / 180) * Real.cos (destLat * Real.pi / 180) *
      Real.sin (dLon/2) * Real.sin (dLon/2)
  let c := 2 * atan2 (Real.sqrt a) (Real.sqrt (1 - a))
  let distance := 6371 * c
  { etaMinutes := jsRound (distance / averageSpeed * 60),
    distance := round2 distance,
    trafficDelay := 0,
    hasTraffic := false }

/-- Return record of `routeSchema.methods.calculateETA`
(School.js:418-422). -/
structure RouteETA where
  etaMinutes : ℤ
  distance : ℝ
  targetStop : Stop

/-- Method `routeSchema.methods.calculateETA` (School.js:397-423): resolves the
target stop in the *direction-ordered* list, takes the haversine distance
to it and divides by the assumed 30 km/h average speed. -/
noncomputable def routeCalculateETA (r : Route) (currentLat currentLng : ℝ)
    (targetStopIndex : ℕ) (direction : Direction) : Option RouteETA :=
  if r.stops.isEmpty then none
  else
    let stops := getStopsForDirection r direction
    match stops.get? targetStopIndex with
    | none => none
    | some targetStop =>
        let distance := calculateDistance currentLat currentLng
          (targetStop.location.2 : ℝ) (targetStop.location.1 : ℝ)
        some { etaMinutes := jsRound (distance / 30 * 60),
               distance := round2 distance,
               targetStop := targetStop }

/-- Guard of the `bus_near_stop` emission in `POST /location/update`
(location.js:59-82): route populated, `stops[bus.currentStopIndex]`
exists, and the haversine distance from the fix to that stop is
`<= 0.5` km. -/
def httpBusNearStopEmitted (bus : Bus) (latitude longitude : ℚ) : Prop :=
  match bus.route with
  | none => False
  | some r =>
      match r.stops.get? bus.currentStopIndex with
      | none => False
      | some currentStop =>
          calculateDistance (latitude : ℝ) (longitude : ℝ)
            (currentStop.location.2 : ℝ) (currentStop.location.1 : ℝ) ≤ 0.5

/-- Guard of the `bus_approaching_stop` emission in the socket
`location_update` handler (socketHandlers.js:104-132): the same
route/stop resolution and the same `distance <= 0.5` comparison. -/
def socketApproachingEmitted (bus : Bus) (latitude longitude : ℚ) : Prop :=
  match bus.route with
  | none => False
  | some r =>
      match r.stops.get? bus.currentStopIndex with
      | none => False
      | some currentStop =>
          calculateDistance (latitude : ℝ) (longitude : ℝ)
            (currentStop.location.2 : ℝ) (currentStop.location.1 : ℝ) ≤ 0.5

/-- JavaScript `speed || 30` (location.js:78, socketHandlers.js:117):
`undefined` and `0` are both falsy, so either yields the 30 km/h
default. -/
def speedOr30 (speed : Option ℚ) : ℚ :=
  match speed with
  | none => 30
  | some s => if s = 0 then 30 else s

/-- Expression `eta: Math.round(distance * 60 / (speed || 30))` — the ETA carried by
the HTTP path's `bus_near_stop` event (location.js:78). -/
noncomputable def httpNearStopEta (distance : ℝ) (speed : Option ℚ) : ℤ :=
  jsRound (distance * 60 / (speedOr30 speed : ℝ))

/-- Expression `const etaMinutes = Math.round(distance * 60 / (speed || 30))` — the
ETA carried by the socket path's `bus_approaching_stop` event
(socketHandlers.js:117). -/
noncomputable def socketNearStopEta (distance : ℝ) (speed : Option ℚ) : ℤ :=
  jsRound (distance * 60 / (speedOr30 speed : ℝ))

/-- First leg of the Google Directions response as read by
`calculateTrafficETA` (trafficService.js:36-42): `duration.value`,
optional `duration_in_traffic.value`, and `distance.value` (metres). -/
structure TrafficLeg where
  durationValue : ℚ
  durationInTrafficValue : Option ℚ
  distanceMeters : ℚ
deriving DecidableEq, Repr

/-- Outcome of the axios call made by `calculateTrafficETA`: the request
throws (network error / timeout), or it yields a response with a `status`
string and an optional first route-leg (`routes[0].legs[0]`). -/
inductive TrafficApiOutcome where
  | throws
  | response (status : String) (firstLeg : Option TrafficLeg)
deriving DecidableEq, Repr

/-- Return record of `calculateTrafficETA` (trafficService.js:47-53);
the human-readable `etaText` string is omitted. -/
structure TrafficETA where
  etaMinutes : ℤ
  distance : ℚ
  trafficDelay : ℤ
  hasTraffic : Bool
deriving DecidableEq, Repr

/-- JavaScript `Math.round` over the exact rationals used on the traffic
path. -/
def jsRoundQ (x : ℚ) : ℤ := ⌊x + 1/2⌋

/-- JavaScript `Math.round(x * 100) / 100` over rationals. -/
def round2Q (x : ℚ) : ℚ := (jsRoundQ (x * 100) : ℚ) / 100

/-- Function `calculateTrafficETA` (trafficService.js:7-58).  Every failure —
missing API key, thrown request, `status !== 'OK'`, missing
`routes[0]`/`legs[0]` — is absorbed and returns `null` (the body is one
big `try`/`catch` whose `catch` returns `null`); the embedding is a total
function into `Option`. -/
def calculateTrafficETA (apiKey : Option String) (api : TrafficApiOutcome) :
    Option TrafficETA :=
  match apiKey with
  | none => none
  | some _ =>
      match api with
      | TrafficApiOutcome.throws => none
      | TrafficApiOutcome.response status firstLeg =>
          if status ≠ "OK" then none
          else
            match firstLeg with
            | none => none
            | some leg =>
                let durationInTrafficValue :=
                  leg.durationInTrafficValue.getD leg.durationValue
                let distance := leg.distanceMeters / 1000
                let expectedDuration := distance / 30 * 3600
                let trafficDelay :=
                  max 0 (durationInTrafficValue - expectedDuration)
                some
                  { etaMinutes := jsRoundQ (durationInTrafficValue / 60),
                    distance := round2Q distance,
                    trafficDelay := jsRoundQ (trafficDelay / 60),
                    hasTraffic := decide (0 < trafficDelay) }

/-- The JSON body answered by `GET /location/eta/:busId/:stopIndex`
(location.js:202-212), restricted to the ETA fields. -/
structure EtaResponse where
  eta : ℤ
  distance : ℝ
  trafficDelay : ℤ

/-- Traffic-merge stage of the `GET /eta/:busId/:stopIndex` handler
(location.js:185-212), given the already-computed basic ETA: when
`calculateTrafficETA` yields a value its `etaMinutes`/`trafficDelay`
overwrite the basic ones, otherwise the basic ETA stands and
`eta.trafficDelay || 0` renders as `0` (the basic record has no
`trafficDelay` property). -/
noncomputable def etaQueryRespond (basicEta : RouteETA)
    (apiKey : Option String) (api : TrafficApiOutcome) : EtaResponse :=
  match calculateTrafficETA apiKey api with
  | some t =>
      { eta := t.etaMinutes, distance := basicEta.distance,
        trafficDelay := t.trafficDelay }
  | none =>
      { eta := basicEta.etaMinutes, distance := basicEta.distance,
        trafficDelay := 0 }

/-- The failure shapes of the primary traffic path enumerated by the
degradation policy: missing credential, thrown request (timeout/network),
non-`OK` API status, or a malformed response with no first leg. -/
def trafficUnavailable (apiKey : Option String) (api : TrafficApiOutcome) :
    Prop :=
  apiKey = none ∨ api = TrafficApiOutcome.throws ∨
    (∃ s l, api = TrafficApiOutcome.response s l ∧ s ≠ "OK") ∨
    (∃ s, api = TrafficApiOutcome.response s none)

/-! ### Concrete fixtures used by witnesses and counterexamples -/

/-- Stop at longitude 10, latitude 0. -/
def stopA : Stop := { name := "A", location := (10, 0) }

/-- Stop at longitude 11, latitude 1. -/
def stopB : Stop := { name := "B", location := (11, 1) }

/-- Stop at longitude 12, latitude 2. -/
def stopC : Stop := { name := "C", location := (12, 2) }

/-- Two-stop route. -/
def demoRoute2 : Route := { stops := [stopA, stopB] }

/-- Three-stop route. -/
def demoRoute3 : Route := { stops := [stopA, stopB, stopC] }

/-- A parked location fix at the origin, timestamp 0. -/
def demoLoc : BusLocation :=
  { coordinates := (0, 0), timestamp := 0, heading := none, speed := none }

/-- Bus on the two-stop route, outbound, at stop 0. -/
def demoBus2 : Bus :=
  { route := some demoRoute2, currentLocation := demoLoc,
    currentDirection := Direction.to_school, currentStopIndex := 0,
    lastLocationUpdate := none, isOnRoute := true }

/-- Bus on the two-stop route, outbound, at stop 1. -/
def demoBus2At1 : Bus := { demoBus2 with currentStopIndex := 1 }

/-- Bus on the three-stop route, inbound (`from_school`), at stop 1. -/
def demoBus3 : Bus :=
  { route := some demoRoute3, currentLocation := demoLoc,
    currentDirection := Direction.from_school, currentStopIndex := 1,
    lastLocationUpdate := none, isOnRoute := true }

/-- Bus whose last accepted fix is at time 100. -/
def demoBusAt100 : Bus :=
  { route := some demoRoute2,
    currentLocation :=
      { coordinates := (0, 0), timestamp := 100, heading := none,
        speed := none },
    currentDirection := Direction.to_school, currentStopIndex := 0,
    lastLocationUpdate := some 100, isOnRoute := true }

/-- A well-formed fix stamped (by its source) at time 50 — older than
`demoBusAt100.lastLocationUpdate`. -/
def staleFix : RawFix :=
  { latitude := 1, longitude := 1, heading := none, speed := none,
    accuracy := none, timestamp := some 50 }

/-- A fix with an out-of-range latitude. -/
def badLatFix : RawFix :=
  { latitude := 100, longitude := 0, heading := none, speed := none,
    accuracy := none, timestamp := none }

/-! ### Helper lemmas -/

/-- Transition `advanceToNextStop` never touches the route reference. -/
theorem advanceToNextStop_route (b : Bus) :
    (advanceToNextStop b).route = b.route := by
  cases hb : b.route <;> simp [advanceToNextStop, hb]

/-- Iterating `advanceToNextStop` never touches the route reference. -/
theorem iterate_advanceToNextStop_route (b : Bus) (k : ℕ) :
    (advanceToNextStop^[k] b).route = b.route := by
  induction k with
  | zero => rfl
  | succ n ih =>
      rw [Function.iterate_succ_apply', advanceToNextStop_route, ih]

/-- One `advanceToNextStop` step on a bus with a nonempty route keeps the
index in range and flips the direction exactly when the new index is 0. -/
theorem advanceToNextStop_step (b : Bus) (r : Route) (hr : b.route = some r)
    (hN : 0 < r.stops.length) :
    (advanceToNextStop b).currentStopIndex < r.stops.length ∧
      ((advanceToNextStop b).currentDirection ≠ b.currentDirection ↔
        (advanceToNextStop b).currentStopIndex = 0) := by
  unfold advanceToNextStop
  rw [hr]
  by_cases h0 : (b.currentStopIndex + 1) % r.stops.length = 0 <;>
    cases hd : b.currentDirection <;>
      simp [h0, hd, hN, Nat.mod_lt _ hN]

/-- Arctangent is nonnegative on nonnegative inputs. -/
theorem arctan_nonneg_of_nonneg {x : ℝ} (hx : 0 ≤ x) : 0 ≤ Real.arctan x := by
  have := Real.arctan_strictMono.monotone hx
  rwa [Real.arctan_zero] at this

/-- JavaScript `atan2` is nonnegative whenever its first argument is. -/
theorem atan2_nonneg {y x : ℝ} (hy : 0 ≤ y) : 0 ≤ atan2 y x := by
  unfold atan2
  by_cases hx : 0 < x
  · rw [if_pos hx]
    exact arctan_nonneg_of_nonneg (div_nonneg hy hx.le)
  · rw [if_neg hx]
    by_cases hx' : x < 0
    · rw [if_pos hx', if_pos hy]
      have h1 : -(Real.pi / 2) < Real.arctan (y / x) :=
        Real.neg_pi_div_two_lt_arctan _
      have h2 : 0 < Real.pi := Real.pi_pos
      linarith
    · rw [if_neg hx']
      by_cases hy' : 0 < y
      · rw [if_pos hy']
        have := Real.pi_pos
        linarith
      · rw [if_neg hy', if_neg (by linarith : ¬ y < 0)]

/-- The haversine distance is nonnegative (first `atan2` argument is a
square root). -/
theorem calculateDistance_nonneg (lat1 lon1 lat2 lon2 : ℝ) :
    0 ≤ calculateDistance lat1 lon1 lat2 lon2 := by
  unfold calculateDistance
  have h := atan2_nonneg (x := Real.sqrt (1 - havA lat1 lon1 lat2 lon2))
    (Real.sqrt_nonneg (havA lat1 lon1 lat2 lon2))
  positivity

/-- Rounding a nonnegative number with `Math.round` stays nonnegative. -/
theorem jsRound_nonneg {x : ℝ} (hx : 0 ≤ x) : 0 ≤ jsRound x := by
  unfold jsRound
  exact Int.floor_nonneg.mpr (by linarith)

/-- The haversine `a`-term is symmetric in its two endpoints. -/
theorem havA_symm (lat1 lon1 lat2 lon2 : ℝ) :
    havA lat1 lon1 lat2 lon2 = havA lat2 lon2 lat1 lon1 := by
  unfold havA
  have hlat : deg2rad (lat1 - lat2) / 2 = -(deg2rad (lat2 - lat1) / 2) := by
    unfold deg2rad; ring
  have hlon : deg2rad (lon1 - lon2) / 2 = -(deg2rad (lon2 - lon1) / 2) := by
    unfold deg2rad; ring
  rw [hlat, hlon]
  simp only [Real.sin_neg]
  ring

/-- The haversine `a`-term vanishes at identical endpoints. -/
theorem havA_self (lat lon : ℝ) : havA lat lon lat lon = 0 := by
  unfold havA deg2rad
  simp

/-- Unfolding of the express-validator checks into the individual range
conditions. -/
theorem validFix_spec (f : RawFix) : validFix f = true ↔
    (-90 ≤ f.latitude ∧ f.latitude ≤ 90 ∧
      -180 ≤ f.longitude ∧ f.longitude ≤ 180 ∧
      (∀ h, f.heading = some h → 0 ≤ h ∧ h ≤ 360) ∧
      (∀ s, f.speed = some s → 0 ≤ s) ∧
      (∀ a, f.accuracy = some a → 0 ≤ a)) := by
  unfold validFix
  cases hh : f.heading <;> cases hs : f.speed <;> cases ha : f.accuracy <;>
    simp [hh, hs, ha, and_assoc]

/-! ### Claim theorems -/

/-- C1 counterexample.  The claim asserts that after any arrive-transition
(including an explicit driver-asserted `stopIndex` via `arrived_at_stop`)
`currentStopIndex` stays in `[0, N)` and the direction flips iff the new
index is 0.  On the two-stop route, the driver-asserted index 5 is stored
verbatim and lands outside `[0, 2)`; likewise, a driver-asserted arrival at
index 0 does not flip the direction. -/
theorem claim1_counterexample :
    demoBus2.route = some demoRoute2 ∧ demoRoute2.stops.length = 2 ∧
    (arrivedAtStop demoBus2 5).currentStopIndex = 5 ∧
    ¬ ((arrivedAtStop demoBus2 5).currentStopIndex <
        demoRoute2.stops.length) ∧
    (arrivedAtStop demoBus2At1 0).currentStopIndex = 0 ∧
    (arrivedAtStop demoBus2At1 0).currentDirection =
      demoBus2At1.currentDirection := by
  decide

/-- C1 amended: restricted to the `advanceToNextStop` transition, for every
route of length `N ≥ 2` and every sequence of transitions, the resulting
`currentStopIndex` stays in `[0, N)` and the direction flips iff the
resulting index is 0.  (The explicit `arrived_at_stop` transition stores the
driver-asserted index verbatim, with no bounds check and no direction
flip.) -/
theorem claim1_advance_invariant (b : Bus) (r : Route)
    (hr : b.route = some r) (hN : 2 ≤ r.stops.length) (k : ℕ) :
    (advanceToNextStop^[k + 1] b).currentStopIndex < r.stops.length ∧
      ((advanceToNextStop^[k + 1] b).currentDirection ≠
          (advanceToNextStop^[k] b).currentDirection ↔
        (advanceToNextStop^[k + 1] b).currentStopIndex = 0) := by
  have hroute : (advanceToNextStop^[k] b).route = some r := by
    rw [iterate_advanceToNextStop_route]; exact hr
  have hstep := advanceToNextStop_step (advanceToNextStop^[k] b) r hroute
    (by omega)
  rwa [Function.iterate_succ_apply']

/-- C1 witness: one advance step on the concrete two-stop bus. -/
theorem claim1_witness :
    demoBus2.route = some demoRoute2 ∧ 2 ≤ demoRoute2.stops.length ∧
    ((advanceToNextStop^[0 + 1] demoBus2).currentStopIndex <
        demoRoute2.stops.length ∧
      ((advanceToNextStop^[0 + 1] demoBus2).currentDirection ≠
          (advanceToNextStop^[0] demoBus2).currentDirection ↔
        (advanceToNextStop^[0 + 1] demoBus2).currentStopIndex = 0)) :=
  ⟨rfl, by decide, claim1_advance_invariant demoBus2 demoRoute2 rfl
    (by decide) 0⟩

/-- C2 counterexample.  `staleFix` carries timestamp 50, older than the
vehicle's `lastLocationUpdate` of 100, and passes validation — yet
ingesting it moves the position: no staleness check exists anywhere on the
ingestion path. -/
theorem claim2_counterexample :
    validFix staleFix = true ∧
    staleFix.timestamp = some 50 ∧
    demoBusAt100.lastLocationUpdate = some 100 ∧ (50 : ℚ) < 100 ∧
    (ingestUpdate demoBusAt100 [] staleFix 150).bus.currentLocation.coordinates ≠
      demoBusAt100.currentLocation.coordinates := by
  decide

/-- C2 amended: the ingestion path performs no timestamp comparison at all
— the fix's own timestamp is ignored, and every fix that passes validation
unconditionally overwrites the position and stamps `lastLocationUpdate`
with the receipt time, leaving `currentStopIndex` and `currentDirection`
untouched. -/
theorem claim2_no_staleness_check (b : Bus) (logs : List LocationLogEntry)
    (f : RawFix) (now : ℚ) (h : validFix f = true) :
    (ingestUpdate b logs f now).bus.currentLocation.coordinates =
      (f.longitude, f.latitude) ∧
    (ingestUpdate b logs f now).bus.lastLocationUpdate = some now ∧
    (ingestUpdate b logs f now).bus.currentStopIndex =
      b.currentStopIndex ∧
    (ingestUpdate b logs f now).bus.currentDirection =
      b.currentDirection := by
  unfold ingestUpdate
  rw [h]
  simp [updateLocation]

/-- C2 witness: the amended behaviour at the concrete stale fix. -/
theorem claim2_witness :
    validFix staleFix = true ∧
    ((ingestUpdate demoBusAt100 [] staleFix 150).bus.currentLocation.coordinates =
        (staleFix.longitude, staleFix.latitude) ∧
      (ingestUpdate demoBusAt100 [] staleFix 150).bus.lastLocationUpdate =
        some 150 ∧
      (ingestUpdate demoBusAt100 [] staleFix 150).bus.currentStopIndex =
        demoBusAt100.currentStopIndex ∧
      (ingestUpdate demoBusAt100 [] staleFix 150).bus.currentDirection =
        demoBusAt100.currentDirection) :=
  ⟨by decide, claim2_no_staleness_check demoBusAt100 [] staleFix 150
    (by decide)⟩

/-- C3 counterexample.  On the three-stop route with the bus inbound
(`from_school`) at index 1, `Bus.getNextStop` answers with the raw-order
stop `C`, while the direction-ordered resolution used for distance/ETA
(`Route.getNextStop`) answers with stop `A`: the Bus-level next-stop answer
does not agree with the direction-ordered list. -/
theorem claim3_counterexample :
    demoBus3.route = some demoRoute3 ∧
    demoBus3.currentDirection = Direction.from_school ∧
    busGetNextStop demoBus3 = some stopC ∧
    (routeGetNextStop demoRoute3 demoBus3.currentStopIndex
        demoBus3.currentDirection).map Prod.fst = some stopA ∧
    busGetNextStop demoBus3 ≠
      (routeGetNextStop demoRoute3 demoBus3.currentStopIndex
        demoBus3.currentDirection).map Prod.fst := by
  decide

/-- C3 amended: `Bus.getNextStop` resolves `(currentStopIndex + 1) mod N`
against the *raw* stop order regardless of the vehicle's direction, so it
agrees with the direction-ordered resolution (`Route.getNextStop`) when the
direction is outbound (`to_school`), but not in general when inbound. -/
theorem claim3_raw_order_next_stop (b : Bus) (r : Route)
    (hr : b.route = some r) (hne : r.stops ≠ []) :
    busGetNextStop b =
      r.stops.get? ((b.currentStopIndex + 1) % r.stops.length) ∧
    (b.currentDirection = Direction.to_school →
      busGetNextStop b =
        (routeGetNextStop r b.currentStopIndex
          b.currentDirection).map Prod.fst) := by
  constructor
  · simp [busGetNextStop, hr]
  · intro hd
    have hlen : 0 < r.stops.length := List.length_pos.mpr hne
    have hlt : (b.currentStopIndex + 1) % r.stops.length < r.stops.length :=
      Nat.mod_lt _ hlen
    simp only [busGetNextStop, hr, routeGetNextStop, getStopsForDirection,
      hd]
    rw [if_neg (by simp [hne])]
    rw [List.get?_eq_get hlt]
    rfl

/-- C3 witness: the outbound agreement on the concrete two-stop bus. -/
theorem claim3_witness :
    demoBus2.route = some demoRoute2 ∧ demoRoute2.stops ≠ [] ∧
    (busGetNextStop demoBus2 =
        demoRoute2.stops.get?
          ((demoBus2.currentStopIndex + 1) % demoRoute2.stops.length) ∧
      (demoBus2.currentDirection = Direction.to_school →
        busGetNextStop demoBus2 =
          (routeGetNextStop demoRoute2 demoBus2.currentStopIndex
            demoBus2.currentDirection).map Prod.fst)) :=
  ⟨rfl, by decide, claim3_raw_order_next_stop demoBus2 demoRoute2 rfl
    (by decide)⟩

/-- C7: any fix with latitude outside `[-90, 90]`, longitude outside
`[-180, 180]`, a present heading outside `[0, 360]`, or a present negative
speed is rejected with HTTP 400 before any state mutation: the bus state
and the location-log collection are returned untouched. -/
theorem claim7_invalid_fix_rejected (bus : Bus)
    (logs : List LocationLogEntry) (f : RawFix) (now : ℚ)
    (h : f.latitude < -90 ∨ 90 < f.latitude ∨
      f.longitude < -180 ∨ 180 < f.longitude ∨
      (∃ hd, f.heading = some hd ∧ (hd < 0 ∨ 360 < hd)) ∨
      (∃ s, f.speed = some s ∧ s < 0)) :
    ingestUpdate bus logs f now =
      { status := 400, bus := bus, logs := logs } := by
  have hv : validFix f = false := by
    by_contra hc
    rw [Bool.not_eq_false, validFix_spec] at hc
    obtain ⟨h1, h2, h3, h4, h5, h6, _⟩ := hc
    rcases h with h | h | h | h | ⟨hd, hhd, hbad⟩ | ⟨s, hs, hneg⟩
    · linarith
    · linarith
    · linarith
    · linarith
    · rcases h5 hd hhd with ⟨hl, hu⟩
      rcases hbad with hb | hb <;> linarith
    · have := h6 s hs
      linarith
  unfold ingestUpdate
  rw [hv]
  simp

/-- C7 witness: the out-of-range-latitude fix is rejected and mutates
nothing. -/
theorem claim7_witness :
    (badLatFix.latitude < -90 ∨ 90 < badLatFix.latitude ∨
      badLatFix.longitude < -180 ∨ 180 < badLatFix.longitude ∨
      (∃ hd, badLatFix.heading = some hd ∧ (hd < 0 ∨ 360 < hd)) ∨
      (∃ s, badLatFix.speed = some s ∧ s < 0)) ∧
    ingestUpdate demoBus2 [] badLatFix 0 =
      { status := 400, bus := demoBus2, logs := [] } :=
  ⟨Or.inr (Or.inl (by decide)),
    claim7_invalid_fix_rejected demoBus2 [] badLatFix 0
      (Or.inr (Or.inl (by decide)))⟩

/-- C4: for a vehicle with an assigned route and an existing target stop,
both the HTTP (`bus_near_stop`) and the socket (`bus_approaching_stop`)
approaching events are emitted if and only if the haversine distance to the
target stop satisfies `distanceKm * 1000 ≤ 500` — the 500 m boundary is
included, with `≤` in both paths. -/
theorem claim4_threshold (b : Bus) (lat lng : ℚ) (r : Route) (s : Stop)
    (hr : b.route = some r)
    (hs : r.stops.get? b.currentStopIndex = some s) :
    (httpBusNearStopEmitted b lat lng ↔
      calculateDistance (lat : ℝ) (lng : ℝ) (s.location.2 : ℝ)
        (s.location.1 : ℝ) * 1000 ≤ 500) ∧
    (socketApproachingEmitted b lat lng ↔
      calculateDistance (lat : ℝ) (lng : ℝ) (s.location.2 : ℝ)
        (s.location.1 : ℝ) * 1000 ≤ 500) := by
  unfold httpBusNearStopEmitted socketApproachingEmitted
  simp only [hr, hs]
  constructor <;>
    exact ⟨fun h => by linarith, fun h => by linarith⟩

/-- C4 witness: the equivalence at the concrete bus, fix (0,0), and its
current target stop. -/
theorem claim4_witness :
    demoBus2.route = some demoRoute2 ∧
    demoRoute2.stops.get? demoBus2.currentStopIndex = some stopA ∧
    ((httpBusNearStopEmitted demoBus2 0 0 ↔
        calculateDistance ((0 : ℚ) : ℝ) ((0 : ℚ) : ℝ)
          (stopA.location.2 : ℝ) (stopA.location.1 : ℝ) * 1000 ≤ 500) ∧
      (socketApproachingEmitted demoBus2 0 0 ↔
        calculateDistance ((0 : ℚ) : ℝ) ((0 : ℚ) : ℝ)
          (stopA.location.2 : ℝ) (stopA.location.1 : ℝ) * 1000 ≤ 500)) :=
  ⟨rfl, by decide,
    claim4_threshold demoBus2 0 0 demoRoute2 stopA rfl (by decide)⟩

/-- C5: the fallback ETA (`calculateBasicETA` with its default 30 km/h
average speed) reports no traffic usage (`hasTraffic = false`), zero
traffic delay, and a nonnegative `etaMinutes` equal to
`round(haversineDistanceKm / 30 * 60)`, where the inline haversine agrees
with `routeSchema.methods.calculateDistance`. -/
theorem claim5_basic_eta_fallback (oLat oLng dLat dLng : ℝ) :
    (calculateBasicETA oLat oLng dLat dLng 30).hasTraffic = false ∧
    (calculateBasicETA oLat oLng dLat dLng 30).trafficDelay = 0 ∧
    (calculateBasicETA oLat oLng dLat dLng 30).etaMinutes =
      jsRound (calculateDistance oLat oLng dLat dLng / 30 * 60) ∧
    0 ≤ (calculateBasicETA oLat oLng dLat dLng 30).etaMinutes := by
  have hA : Real.sin ((dLat - oLat) * Real.pi / 180 / 2) *
        Real.sin ((dLat - oLat) * Real.pi / 180 / 2) +
      Real.cos (oLat * Real.pi / 180) * Real.cos (dLat * Real.pi / 180) *
        Real.sin ((dLng - oLng) * Real.pi / 180 / 2) *
        Real.sin ((dLng - oLng) * Real.pi / 180 / 2) =
      havA oLat oLng dLat dLng := by
    unfold havA deg2rad
    ring_nf
  have hkey : (calculateBasicETA oLat oLng dLat dLng 30).etaMinutes =
      jsRound (calculateDistance oLat oLng dLat dLng / 30 * 60) := by
    simp only [calculateBasicETA, calculateDistance]
    rw [hA]
  refine ⟨rfl, rfl, hkey, ?_⟩
  rw [hkey]
  refine jsRound_nonneg ?_
  have h := calculateDistance_nonneg oLat oLng dLat dLng
  positivity

/-- C6: every failure shape of the primary traffic path (missing
credential, thrown request, non-OK status, malformed response) is absorbed:
`calculateTrafficETA` returns `none` (never an exception — its embedding is
total), and the ETA query then answers with the fallback basic ETA and a
zero traffic delay instead of an error. -/
theorem claim6_traffic_failure_fallback (basicEta : RouteETA)
    (apiKey : Option String) (api : TrafficApiOutcome)
    (h : trafficUnavailable apiKey api) :
    calculateTrafficETA apiKey api = none ∧
    etaQueryRespond basicEta apiKey api =
      { eta := basicEta.etaMinutes, distance := basicEta.distance,
        trafficDelay := 0 } := by
  have hnone : calculateTrafficETA apiKey api = none := by
    rcases h with h | h | ⟨s, l, hresp, hsne⟩ | ⟨s, hresp⟩
    · rw [h]; rfl
    · subst h; cases apiKey <;> rfl
    · subst hresp
      cases apiKey with
      | none => rfl
      | some k => simp [calculateTrafficETA, hsne]
    · subst hresp
      cases apiKey with
      | none => rfl
      | some k =>
          by_cases hok : s = "OK" <;> simp [calculateTrafficETA, hok]
  refine ⟨hnone, ?_⟩
  unfold etaQueryRespond
  rw [hnone]

/-- C6 witness: a thrown request with no API key yields `none` and the
fallback ETA response. -/
theorem claim6_witness :
    trafficUnavailable none TrafficApiOutcome.throws ∧
    (calculateTrafficETA none TrafficApiOutcome.throws = none ∧
      etaQueryRespond ⟨3, 0, stopA⟩ none TrafficApiOutcome.throws =
        { eta := 3, distance := 0, trafficDelay := 0 }) :=
  ⟨Or.inl rfl,
    claim6_traffic_failure_fallback ⟨3, 0, stopA⟩ none
      TrafficApiOutcome.throws (Or.inl rfl)⟩

/-- C8: the great-circle distance of
`routeSchema.methods.calculateDistance` is symmetric in its two endpoints
and zero at identical endpoints. -/
theorem claim8_distance_symm_and_zero (lat1 lon1 lat2 lon2 : ℝ) :
    calculateDistance lat1 lon1 lat2 lon2 =
      calculateDistance lat2 lon2 lat1 lon1 ∧
    calculateDistance lat1 lon1 lat1 lon1 = 0 := by
  constructor
  · unfold calculateDistance
    rw [havA_symm]
  · unfold calculateDistance
    rw [havA_self, Real.sqrt_zero, sub_zero, Real.sqrt_one]
    unfold atan2
    rw [if_pos one_pos]
    simp [Real.arctan_zero]

/-- C10: the ETA carried by the approaching events equals
`round(distanceKm * 60 / speed)` for a nonzero reported speed, while a
missing speed or a reported speed of exactly `0` falls back to 30 km/h
(JavaScript `speed || 30` treats `0` as absent), identically on the HTTP
and socket paths. -/
theorem claim10_near_stop_eta (d : ℝ) (s : ℚ) (hs : s ≠ 0) :
    httpNearStopEta d (some s) = jsRound (d * 60 / (s : ℝ)) ∧
    httpNearStopEta d none = jsRound (d * 60 / 30) ∧
    httpNearStopEta d (some 0) = httpNearStopEta d (some 30) ∧
    socketNearStopEta d (some s) = jsRound (d * 60 / (s : ℝ)) ∧
    socketNearStopEta d none = jsRound (d * 60 / 30) ∧
    socketNearStopEta d (some 0) = socketNearStopEta d (some 30) := by
  unfold httpNearStopEta socketNearStopEta speedOr30
  norm_num [hs]

/-- C10 witness: the ETA law at distance 1 km and speed 60 km/h. -/
theorem claim10_witness :
    (60 : ℚ) ≠ 0 ∧
    (httpNearStopEta 1 (some 60) = jsRound (1 * 60 / ((60 : ℚ) : ℝ)) ∧
      httpNearStopEta 1 none = jsRound (1 * 60 / 30) ∧
      httpNearStopEta 1 (some 0) = httpNearStopEta 1 (some 30) ∧
      socketNearStopEta 1 (some 60) = jsRound (1 * 60 / ((60 : ℚ) : ℝ)) ∧
      socketNearStopEta 1 none = jsRound (1 * 60 / 30) ∧
      socketNearStopEta 1 (some 0) = socketNearStopEta 1 (some 30)) :=
  ⟨by norm_num, claim10_near_stop_eta 1 60 (by norm_num)⟩

end BusTracking
